import Mathlib

/-!
Verification of the CiderPress disk-image engine (`DiskImg.cpp`).

This file gives a shallow embedding of the `DiskImg` class state machine:
sector-order translation (`CalcSectorAndOffset`), block and track/sector
reads and writes, the bad-block map, the dirty flag, filesystem detection
(`AnalyzeImageFS`), format override (`OverrideFormat`), create-time
validation (`ValidateCreateFormat`), image-file analysis
(`AnalyzeImageFile`) and flushing (`FlushImage`).

Modelling conventions:
* C++ `long`/`int` quantities (tracks, sectors, blocks, byte offsets,
  lengths) become `Int`; byte values become `Nat`.
* The backing store `fpDataGFD` is modelled as a total byte map
  `Nat → Nat`; `GenericFD` seek/read/write are modelled as succeeding
  (the claims under study do not concern OS-level I/O failures).
* Buffers are `List Nat`; the C++ `buf == nil` checks (null pointers)
  are not modelled.
* Code outside the provided sources (the `Wrapper*::Test/Prep` functions,
  the `DiskFS*::TestFS` probes and the nibble codec) is abstracted as
  oracle parameters or oracle fields, so theorems quantify over every
  possible behaviour of those components.
* `assert()` statements and debug logging (`WMSG*`, `DebugBreak`) are
  dropped, as in an NDEBUG build.
-/

/-- The `DIError` codes used by the functions modelled here
(a subset of the full enum in `DiskImg.h`). `none` is `kDIErrNone`. -/
inductive DIError where
  | none
  | unsupportedAccess
  | invalidTrack
  | invalidSector
  | invalidBlock
  | invalidArg
  | readFailed
  | accessDenied
  | internal
  | generic
  | unrecognizedFileFmt
  | badFileFormat
  | fileArchive
  | badChecksum
  | unsupportedPhysicalFmt
  | unsupportedFSFmt
  | badOrdering
  | filesystemNotFound
  | invalidCreateReq
  | oddLength
  | malloc
  deriving DecidableEq, Repr

/-- `DiskImg::SectorOrder`. -/
inductive SectorOrder where
  | unknown
  | prodos
  | dos
  | cpm
  | physical
  deriving DecidableEq, Repr

/-- `DiskImg::PhysicalFormat`. -/
inductive PhysicalFormat where
  | unknown
  | sectors
  | nib525_6656
  | nib525_6384
  | nib525_var
  deriving DecidableEq, Repr

/-- `DiskImg::FSFormat`. -/
inductive FSFormat where
  | unknown
  | prodos
  | dos33
  | dos32
  | pascal
  | macHFS
  | macMFS
  | lisa
  | cpm
  | msdos
  | iso9660
  | rdos33
  | rdos32
  | rdos3
  | unidos
  | ozdos
  | cffa4
  | cffa8
  | macPart
  | microDrive
  | focusDrive
  | genericPhysicalOrd
  | genericProDOSOrd
  | genericDOSOrd
  | genericCPMOrd
  deriving DecidableEq, Repr

/-- `DiskImg::FileFormat`. -/
inductive FileFormat where
  | unknown
  | unadorned
  | twoMG
  | diskCopy42
  | sim2eHDV
  | trackStar
  | fdi
  | nuFX
  | ddd
  deriving DecidableEq, Repr

/-- `DiskImg::OuterFormat`. -/
inductive OuterFormat where
  | unknown
  | none
  | gzip
  | zip
  deriving DecidableEq, Repr

/-- `DiskImg::NibbleEncoding`: `kNibbleEnc53` / `kNibbleEnc62`. -/
inductive NibbleEnc where
  | enc53
  | enc62
  deriving DecidableEq, Repr

/-- The parts of `DiskImg::NibbleDescr` consulted by
`ValidateCreateFormat`. -/
structure NibbleDescr where
  numSectors : Int
  encoding : NibbleEnc
  deriving DecidableEq, Repr

/-- `DiskImg::NoteType` (`kNoteInfo` / `kNoteWarning`). -/
inductive NoteType where
  | info
  | warning
  deriving DecidableEq, Repr

/-- `kSectorSize`: 256 bytes. -/
def kSectorSize : Int := 256

/-- `kBlockSize`: 512 bytes. -/
def kBlockSize : Int := 512

/-- The model of `DiskImg` instance state.  `data` is the payload byte
store behind `fpDataGFD`; `nibbleRead`/`nibbleWrite` are oracle fields
standing for `ReadNibbleSector`/`WriteNibbleSector`, whose nibble-codec
implementation is outside the sources modelled here. -/
structure DiskImg where
  hasSectors : Bool := false
  hasBlocks : Bool := false
  hasNibbles : Bool := false
  numTracks : Int := -1
  numSectPerTrack : Int := -1
  numBlocks : Int := -1
  sectorPairing : Bool := false
  sectorPairOffset : Int := 0
  order : SectorOrder := SectorOrder.unknown
  fileSysOrder : SectorOrder := SectorOrder.unknown
  physical : PhysicalFormat := PhysicalFormat.unknown
  fileFormat : FileFormat := FileFormat.unknown
  outerFormat : OuterFormat := OuterFormat.none
  format : FSFormat := FSFormat.unknown
  readOnly : Bool := false
  dirty : Bool := false
  badBlockMap : Option (List Int) := Option.none
  nibbleDescr : Option NibbleDescr := Option.none
  length : Int := -1
  data : Nat → Nat := fun _ => 0
  nibbleRead : Int → Int → Except DIError (List Nat) := fun _ _ => .error .generic
  nibbleWrite : (Nat → Nat) → Int → Int → List Nat → Except DIError (Nat → Nat) :=
    fun _ _ _ _ => .error .generic
  notes : List (NoteType × String) := []

/-- `DiskImg::IsSectorFormat`. -/
def isSectorFormat : PhysicalFormat → Bool
  | .sectors => true
  | _ => false

/-- `DiskImg::IsNibbleFormat`. -/
def isNibbleFormat : PhysicalFormat → Bool
  | .nib525_6656 => true
  | .nib525_6384 => true
  | .nib525_var => true
  | _ => false

/-- Table `raw2dos` from `CalcSectorAndOffset`. -/
def raw2dos : List Int := [0, 7, 14, 6, 13, 5, 12, 4, 11, 3, 10, 2, 9, 1, 8, 15]

/-- Table `dos2raw` from `CalcSectorAndOffset`. -/
def dos2raw : List Int := [0, 13, 11, 9, 7, 5, 3, 1, 14, 12, 10, 8, 6, 4, 2, 15]

/-- Table `raw2prodos` from `CalcSectorAndOffset`. -/
def raw2prodos : List Int := [0, 8, 1, 9, 2, 10, 3, 11, 4, 12, 5, 13, 6, 14, 7, 15]

/-- Table `prodos2raw` from `CalcSectorAndOffset`. -/
def prodos2raw : List Int := [0, 2, 4, 6, 8, 10, 12, 14, 1, 3, 5, 7, 9, 11, 13, 15]

/-- Table `raw2cpm` from `CalcSectorAndOffset`. -/
def raw2cpm : List Int := [0, 11, 6, 1, 12, 7, 2, 13, 8, 3, 14, 9, 4, 15, 10, 5]

/-- Table `cpm2raw` from `CalcSectorAndOffset`. -/
def cpm2raw : List Int := [0, 3, 6, 9, 12, 15, 2, 5, 8, 11, 14, 1, 4, 7, 10, 13]

/-- Array indexing of one of the translation tables by a C `int`. -/
def tblLookup (tbl : List Int) (i : Int) : Int := tbl.getD i.toNat 0

/-- The first `switch (fsOrder)` of `CalcSectorAndOffset`: convert the
request to a "raw" sector number.  The `kSectorOrderUnknown` case falls
through to `default`, which (after the dropped `assert`) leaves the
sector unchanged. -/
def fs2raw (fsOrder : SectorOrder) (sector : Int) : Int :=
  match fsOrder with
  | .prodos => tblLookup prodos2raw sector
  | .dos => tblLookup dos2raw sector
  | .cpm => tblLookup cpm2raw sector
  | .physical => sector
  | .unknown => sector

/-- The second `switch (imageOrder)` of `CalcSectorAndOffset`: convert a
"raw" sector number to the image's ordering.  `kSectorOrderPhysical` and
the `kSectorOrderUnknown`/`default` cases leave the sector unchanged. -/
def raw2image (imageOrder : SectorOrder) (sector : Int) : Int :=
  match imageOrder with
  | .prodos => tblLookup raw2prodos sector
  | .dos => tblLookup raw2dos sector
  | .cpm => tblLookup raw2cpm sector
  | .physical => sector
  | .unknown => sector

/-- `DiskImg::CalcSectorAndOffset`: returns `(offset, newSector)` or an
error.  Mirrors the source: validity checks, then the
16/32-sector-per-track branch (with the sector-pairing transformation),
the 13-sector branch (no translation), and the fall-back branch, where
`*pNewSector` keeps its initial value `-1`. -/
def calcSectorAndOffset (img : DiskImg) (track sector : Int)
    (imageOrder fsOrder : SectorOrder) : Except DIError (Int × Int) :=
  if !img.hasSectors then .error .unsupportedAccess
  else if track < 0 ∨ track ≥ img.numTracks then .error .invalidTrack
  else if sector < 0 ∨ sector ≥ img.numSectPerTrack then .error .invalidSector
  else if img.numSectPerTrack = 16 ∨ img.numSectPerTrack = 32 then
    let step :=
      if img.sectorPairing then
        let track2 := track * 2
        let p := if sector ≥ 16 then (track2 + 1, sector - 16) else (track2, sector)
        let offset := p.1 * img.numSectPerTrack * kSectorSize
        let sector2 := p.2 * 2 + img.sectorPairOffset
        if sector2 ≥ 16 then (offset + 16 * kSectorSize, sector2 - 16) else (offset, sector2)
      else
        let offset := track * img.numSectPerTrack * kSectorSize
        if sector ≥ 16 then (offset + 16 * kSectorSize, sector - 16) else (offset, sector)
    let newSector := raw2image imageOrder (fs2raw fsOrder step.2)
    .ok (step.1 + newSector * kSectorSize, newSector)
  else if img.numSectPerTrack = 13 then
    .ok (track * img.numSectPerTrack * kSectorSize + sector * kSectorSize, sector)
  else
    .ok (track * img.numSectPerTrack * kSectorSize + sector * kSectorSize, -1)

/-- `DiskImg::IsLinearBlocks`: a linear mapping holds when the payload is
sector-format, the image has blocks, and the image order equals the
filesystem order. -/
def isLinearBlocks (img : DiskImg) (imageOrder fsOrder : SectorOrder) : Bool :=
  isSectorFormat img.physical && img.hasBlocks && decide (imageOrder = fsOrder)

/-- `DiskImg::CheckForBadBlocks`: true when any block in
`[startBlock, startBlock+numBlocks)` is in the bad-block map; always
false when there is no map. -/
def checkForBadBlocks (img : DiskImg) (startBlock numBlocks : Int) : Bool :=
  match img.badBlockMap with
  | Option.none => false
  | Option.some m => (List.range numBlocks.toNat).any fun i => m.contains (startBlock + i)

/-- `DiskImg::CopyBytesOut`: read `size` bytes of the payload starting at
`offset` (seek and read modelled as succeeding). -/
def copyBytesOut (img : DiskImg) (offset : Int) (size : Nat) : List Nat :=
  (List.range size).map fun i => img.data (offset.toNat + i)

/-- Overlay `buf` on the byte store `d` at offset `off`. -/
def writeBytes (d : Nat → Nat) (off : Nat) (buf : List Nat) : Nat → Nat :=
  fun o => if off ≤ o ∧ o < off + buf.length then buf.getD (o - off) 0 else d o

/-- `DiskImg::CopyBytesIn`: refuse when read-only, otherwise write the
buffer into the payload and raise the dirty flag.  (In the source the
dirty flag is also raised on every ancestor `DiskImg`; the parent chain
is modelled separately by `ImgForest` below.) -/
def copyBytesIn (img : DiskImg) (offset : Int) (buf : List Nat) : DIError × DiskImg :=
  if img.readOnly then (.accessDenied, img)
  else (.none, { img with data := writeBytes img.data offset.toNat buf, dirty := true })

/-- `DiskImg::ReadTrackSectorSwapped`: translate `(track, sector)` and
read 256 bytes; nibble images delegate to `ReadNibbleSector` (the
`nibbleRead` oracle field). -/
def readTrackSectorSwapped (img : DiskImg) (track sector : Int)
    (imageOrder fsOrder : SectorOrder) : Except DIError (List Nat) :=
  match calcSectorAndOffset img track sector imageOrder fsOrder with
  | .error e => .error e
  | .ok (offset, newSector) =>
    if isSectorFormat img.physical then .ok (copyBytesOut img offset 256)
    else if isNibbleFormat img.physical then img.nibbleRead track newSector
    else .error .internal

/-- `DiskImg::WriteTrackSector`: like the read path but checks the
read-only flag first and uses the image's own `fOrder`/`fFileSysOrder`;
nibble images delegate to `WriteNibbleSector` (the `nibbleWrite` oracle
field), which like `CopyBytesIn` leaves the image dirty on success. -/
def writeTrackSector (img : DiskImg) (track sector : Int) (buf : List Nat) :
    DIError × DiskImg :=
  if img.readOnly then (.accessDenied, img)
  else
    match calcSectorAndOffset img track sector img.order img.fileSysOrder with
    | .error e => (e, img)
    | .ok (offset, newSector) =>
      if isSectorFormat img.physical then copyBytesIn img offset buf
      else if isNibbleFormat img.physical then
        match img.nibbleWrite img.data track newSector buf with
        | .error e => (e, img)
        | .ok d => (.none, { img with data := d, dirty := true })
      else (.internal, img)

/-- `DiskImg::ReadBlockSwapped`: validity and bad-block checks, then
either the track/sector path (two 256-byte sector reads) or the linear
block path. -/
def readBlockSwapped (img : DiskImg) (block : Int)
    (imageOrder fsOrder : SectorOrder) : Except DIError (List Nat) :=
  if !img.hasBlocks then .error .unsupportedAccess
  else if block < 0 ∨ block ≥ img.numBlocks then .error .invalidBlock
  else if checkForBadBlocks img block 1 then .error .readFailed
  else if img.hasSectors && !isLinearBlocks img imageOrder fsOrder then
    let track := Int.tdiv block (Int.tdiv img.numSectPerTrack 2)
    let blkInTrk := block - track * (Int.tdiv img.numSectPerTrack 2)
    match readTrackSectorSwapped img track (blkInTrk * 2) imageOrder fsOrder with
    | .error e => .error e
    | .ok lo =>
      match readTrackSectorSwapped img track (blkInTrk * 2 + 1) imageOrder fsOrder with
      | .error e => .error e
      | .ok hi => .ok (lo ++ hi)
  else if img.hasBlocks then .ok (copyBytesOut img (block * kBlockSize) 512)
  else .error .internal

/-- Modelled from the spec: `DiskImg::ReadBlock` is declared in the class
header (not among the provided sources) as a forwarder to
`ReadBlockSwapped` with the image's own sector order and filesystem
order ("`read_block(block)` … uses linear fast path when
`image_order == fs_order`", spec §4.8). -/
def readBlock (img : DiskImg) (block : Int) : Except DIError (List Nat) :=
  readBlockSwapped img block img.order img.fileSysOrder

/-- The block-at-a-time fallback loop of `DiskImg::ReadBlocks`
(`while (numBlocks--) { ReadBlock(startBlock, buf); … }`), which is also
the specification-side meaning of "`n` individual calls
`read_block(s+i)`, concatenated". -/
def readBlocksLoop (img : DiskImg) (startBlock : Int) : Nat → Except DIError (List Nat)
  | 0 => .ok []
  | n + 1 =>
    match readBlock img startBlock with
    | .error e => .error e
    | .ok b =>
      match readBlocksLoop img (startBlock + 1) n with
      | .error e => .error e
      | .ok rest => .ok (b ++ rest)

/-- `DiskImg::ReadBlocks`: range check, bad-block check, then either the
block-at-a-time loop or one big linear read. -/
def readBlocks (img : DiskImg) (startBlock numBlocks : Int) : Except DIError (List Nat) :=
  if startBlock < 0 ∨ numBlocks + startBlock > img.numBlocks then .error .invalidArg
  else if checkForBadBlocks img startBlock numBlocks then .error .readFailed
  else if !isLinearBlocks img img.order img.fileSysOrder then
    readBlocksLoop img startBlock numBlocks.toNat
  else .ok (copyBytesOut img (startBlock * kBlockSize) (numBlocks.toNat * 512))

/-- `DiskImg::WriteBlock`: capability, range and read-only checks, then
either two track/sector writes or one linear block write. -/
def writeBlock (img : DiskImg) (block : Int) (buf : List Nat) : DIError × DiskImg :=
  if !img.hasBlocks then (.unsupportedAccess, img)
  else if block < 0 ∨ block ≥ img.numBlocks then (.invalidBlock, img)
  else if img.readOnly then (.accessDenied, img)
  else if img.hasSectors && !isLinearBlocks img img.order img.fileSysOrder then
    let track := Int.tdiv block (Int.tdiv img.numSectPerTrack 2)
    let blkInTrk := block - track * (Int.tdiv img.numSectPerTrack 2)
    match writeTrackSector img track (blkInTrk * 2) (buf.take 256) with
    | (DIError.none, img2) => writeTrackSector img2 track (blkInTrk * 2 + 1) (buf.drop 256)
    | (e, img2) => (e, img2)
  else if img.hasBlocks then copyBytesIn img (block * kBlockSize) buf
  else (.internal, img)

/-- `DiskImg::CalcFSSectorOrder`: the static filesystem-format →
sector-order table. -/
def calcFSSectorOrder (img : DiskImg) : SectorOrder :=
  if img.format = FSFormat.unknown ∨ img.order = SectorOrder.unknown then img.order
  else
    match img.format with
    | .genericPhysicalOrd | .rdos32 | .rdos3 => .physical
    | .genericDOSOrd | .dos33 | .dos32 | .unidos | .ozdos => .dos
    | .genericCPMOrd | .cpm => .cpm
    | .genericProDOSOrd | .prodos | .rdos33 | .pascal | .macHFS | .macMFS
    | .lisa | .msdos | .iso9660 | .cffa4 | .cffa8 | .macPart | .microDrive
    | .focusDrive => .prodos
    | .unknown => img.order

/-! ### Dirty propagation through nested images

`DiskImg::CopyBytesIn` ends with

```
DiskImg* pImg = this;
while (pImg != nil) { pImg->fDirty = true; pImg = pImg->fpParentImg; }
```

and `DiskImg::FlushImage` ends with `fDirty = false` for the image being
flushed (it never touches sub-images).  The parent chain is modelled as a
list of nodes whose `parent` field indexes an earlier list entry. -/

/-- One `DiskImg` in a family of nested images: just the fields the
dirty-propagation logic touches. -/
structure ImgNode where
  dirty : Bool
  readOnly : Bool
  parent : Option Nat
  deriving DecidableEq, Repr

/-- A family of nested `DiskImg`s; `parent` fields index the list. -/
abbrev ImgForest := List ImgNode

/-- Well-formed family: every parent link points to an earlier entry
(a sub-image is created from an already-existing parent, so the chain is
acyclic). -/
def wfForest (f : ImgForest) : Prop :=
  ∀ (i : Nat) (nd : ImgNode) (p : Nat), f[i]? = some nd → nd.parent = some p → p < i

/-- `pImg->fDirty = true` for one node. -/
def markNode (f : ImgForest) (i : Nat) : ImgForest :=
  match f[i]? with
  | Option.none => f
  | Option.some nd => f.set i { nd with dirty := true }

/-- The parent link of node `i`. -/
def parentOf (f : ImgForest) (i : Nat) : Option Nat :=
  (f[i]?).bind fun nd => nd.parent

/-- The `while (pImg != nil)` walk of `CopyBytesIn`: mark `i` and every
ancestor dirty.  `fuel` bounds the walk; `f.length` suffices for a
well-formed family. -/
def dirtyWalk : Nat → ImgForest → Nat → ImgForest
  | 0, f, _ => f
  | fuel + 1, f, i =>
    match parentOf f i with
    | Option.none => markNode f i
    | Option.some p => dirtyWalk fuel (markNode f i) p

/-- The dirty-flag effect of a successful low-level write
(`DiskImg::CopyBytesIn`) through the sub-image at index `i`: refused when
the image is read-only, otherwise node `i` and all its ancestors are
marked dirty. -/
def copyBytesInForest (f : ImgForest) (i : Nat) : DIError × ImgForest :=
  match f[i]? with
  | Option.none => (.internal, f)
  | Option.some nd =>
    if nd.readOnly then (.accessDenied, f)
    else (.none, dirtyWalk f.length f i)

/-- The dirty-flag effect of `DiskImg::FlushImage` on node `i`, on the
success path (the wrapper/outer flushes are modelled as succeeding and
`fpDataGFD` as present): if the image is not dirty nothing happens,
otherwise only this image's own dirty flag is cleared — the source never
walks into sub-images. -/
def flushImageForest (f : ImgForest) (i : Nat) : DIError × ImgForest :=
  match f[i]? with
  | Option.none => (.internal, f)
  | Option.some nd =>
    if !nd.dirty then (.none, f)
    else (.none, f.set i { nd with dirty := false })

/-- Dirty flag of node `j` (false for an out-of-range index). -/
def nodeDirty (f : ImgForest) (j : Nat) : Bool :=
  match f[j]? with
  | Option.none => false
  | Option.some nd => nd.dirty

/-- `j` is reachable from `i` by following zero or more parent links. -/
def ancestorOf (f : ImgForest) (i j : Nat) : Prop :=
  Relation.ReflTransGen (fun a b => parentOf f a = some b) i j

/-! ### Filesystem detection (`AnalyzeImageFS`) and format override

The `DiskFS*::TestFS` probes live outside the provided sources; each is
modelled as an oracle outcome: `.ok (order, format)` when the probe
returns `kDIErrNone` after writing `*pOrder`/`*pFormat`, `.error e`
otherwise. -/

/-- Outcome of one `DiskFS*::TestFS` call. -/
abbrev TestResult := Except DIError (SectorOrder × FSFormat)

/-- Oracle outcomes for the fourteen filesystem probes consulted by
`AnalyzeImageFS` (and, with leniency, by `OverrideFormat`). -/
structure FSProbes where
  macPart : TestResult
  microDrive : TestResult
  focusDrive : TestResult
  cffa : TestResult
  fat : TestResult
  dos33 : TestResult
  unidosWide : TestResult
  unidos : TestResult
  ozdos : TestResult
  prodos : TestResult
  pascal : TestResult
  cpm : TestResult
  rdos : TestResult
  hfs : TestResult

/-- `DiskImg::AnalyzeImageFS`: the fixed if/else-if probe cascade.  The
first succeeding probe sets `fOrder` and `fFormat` (with the source's
adjustments: DOS 3.2 for 13-sector disks; `fNumSectPerTrack = 32` and
`fNumTracks /= 2` for wide-DOS/UNIDOS/OzDOS); if every probe fails,
`fFormat = kFormatUnknown`.  The function returns no error in either
case, and finishes by recomputing `fFileSysOrder`. -/
def analyzeImageFS (p : FSProbes) (img : DiskImg) : DiskImg :=
  let s :=
    match p.macPart with
    | .ok (o, f) => { img with order := o, format := f }
    | .error _ =>
      match p.microDrive with
      | .ok (o, f) => { img with order := o, format := f }
      | .error _ =>
        match p.focusDrive with
        | .ok (o, f) => { img with order := o, format := f }
        | .error _ =>
          match p.cffa with
          | .ok (o, f) => { img with order := o, format := f }
          | .error _ =>
            match p.fat with
            | .ok (o, f) => { img with order := o, format := f }
            | .error _ =>
              match p.dos33 with
              | .ok (o, f) =>
                if img.numSectPerTrack = 13 then
                  { img with order := o, format := FSFormat.dos32 }
                else { img with order := o, format := f }
              | .error _ =>
                match p.unidosWide with
                | .ok (o, f) =>
                  { img with order := o, format := f, numSectPerTrack := 32,
                             numTracks := Int.tdiv img.numTracks 2 }
                | .error _ =>
                  match p.unidos with
                  | .ok (o, f) =>
                    { img with order := o, format := f, numSectPerTrack := 32,
                               numTracks := Int.tdiv img.numTracks 2 }
                  | .error _ =>
                    match p.ozdos with
                    | .ok (o, f) =>
                      { img with order := o, format := f, numSectPerTrack := 32,
                                 numTracks := Int.tdiv img.numTracks 2 }
                    | .error _ =>
                      match p.prodos with
                      | .ok (o, f) => { img with order := o, format := f }
                      | .error _ =>
                        match p.pascal with
                        | .ok (o, f) => { img with order := o, format := f }
                        | .error _ =>
                          match p.cpm with
                          | .ok (o, f) => { img with order := o, format := f }
                          | .error _ =>
                            match p.rdos with
                            | .ok (o, f) => { img with order := o, format := f }
                            | .error _ =>
                              match p.hfs with
                              | .ok (o, f) => { img with order := o, format := f }
                              | .error _ => { img with format := FSFormat.unknown }
  { s with fileSysOrder := calcFSSectorOrder s }

/-- Names for the fourteen probes, in support of stating the probe
order. -/
inductive ProbeId where
  | macPart
  | microDrive
  | focusDrive
  | cffa
  | fat
  | dos33
  | unidosWide
  | unidos
  | ozdos
  | prodos
  | pascal
  | cpm
  | rdos
  | hfs
  deriving DecidableEq, Repr

/-- Project the oracle outcome of one named probe. -/
def probeOutcome (p : FSProbes) : ProbeId → TestResult
  | .macPart => p.macPart
  | .microDrive => p.microDrive
  | .focusDrive => p.focusDrive
  | .cffa => p.cffa
  | .fat => p.fat
  | .dos33 => p.dos33
  | .unidosWide => p.unidosWide
  | .unidos => p.unidos
  | .ozdos => p.ozdos
  | .prodos => p.prodos
  | .pascal => p.pascal
  | .cpm => p.cpm
  | .rdos => p.rdos
  | .hfs => p.hfs

/-- The fixed probe order stated by the specification:
MacPart → MicroDrive → FocusDrive → CFFA → FAT → DOS 3.3/3.2 →
wide UNIDOS → UNIDOS → OzDOS → ProDOS → Pascal → CPM → RDOS → HFS. -/
def probeOrder : List ProbeId :=
  [.macPart, .microDrive, .focusDrive, .cffa, .fat, .dos33, .unidosWide,
   .unidos, .ozdos, .prodos, .pascal, .cpm, .rdos, .hfs]

/-- Specification-side detection: the first probe in `probeOrder` whose
oracle outcome is success, with that outcome. -/
def firstProbeHit (p : FSProbes) : Option (ProbeId × SectorOrder × FSFormat) :=
  probeOrder.findSome? fun id =>
    match probeOutcome p id with
    | .ok (o, f) => some (id, o, f)
    | .error _ => none

/-- `DiskImg::OverrideFormat`: validate the request, short-circuit when
it matches the current values, otherwise re-run the corresponding probe
with leniency (oracle `p`), reject a changed ordering with
`kDIErrBadOrdering`, and install the new format and ordering. -/
def overrideFormat (p : FSProbes) (img : DiskImg) (physical : PhysicalFormat)
    (format : FSFormat) (order : SectorOrder) : Except DIError DiskImg :=
  if !isSectorFormat physical && !isNibbleFormat physical then
    .error .unsupportedPhysicalFmt
  else if physical ≠ img.physical then .error .invalidArg
  else if physical = img.physical ∧ format = img.format ∧ order = img.order then .ok img
  else
    let probeRes : Except DIError (SectorOrder × FSFormat) :=
      match format with
      | .dos33 | .dos32 => p.dos33
      | .prodos => p.prodos
      | .pascal => p.pascal
      | .macHFS => p.hfs
      | .unidos => p.unidos
      | .ozdos => p.ozdos
      | .cffa4 | .cffa8 => p.cffa
      | .macPart => p.macPart
      | .microDrive => p.microDrive
      | .focusDrive => p.focusDrive
      | .cpm => p.cpm
      | .msdos => p.fat
      | .rdos33 | .rdos32 | .rdos3 =>
        match p.rdos with
        | .error e => .error e
        | .ok (o, f) => if f ≠ format then .error .filesystemNotFound else .ok (o, f)
      | .genericPhysicalOrd | .genericProDOSOrd | .genericDOSOrd | .genericCPMOrd =>
        .ok (order, format)
      | .unknown => .ok (order, format)
      | _ => .error .unsupportedFSFmt
    match probeRes with
    | .error e => .error e
    | .ok (newOrder, _) =>
      if newOrder ≠ order then .error .badOrdering
      else
        let img2 := { img with format := format, order := newOrder }
        .ok { img2 with fileSysOrder := calcFSSectorOrder img2 }

/-! ### Create-time validation -/

/-- The check `fpNibbleDescr != nil && fpNibbleDescr->numSectors !=
GetNumSectPerTrack()` of `ValidateCreateFormat`. -/
def descrCountMismatch : Option NibbleDescr → Int → Bool
  | Option.some nd, nspt => nd.numSectors != nspt
  | Option.none, _ => false

/-- The check `fpNibbleDescr != nil && ((numSectors == 13 && encoding !=
kNibbleEnc53) || (numSectors == 16 && encoding != kNibbleEnc62))` of
`ValidateCreateFormat`. -/
def descrEncodingMismatch : Option NibbleDescr → Bool
  | Option.some nd =>
    (nd.numSectors == 13 && nd.encoding != NibbleEnc.enc53) ||
    (nd.numSectors == 16 && nd.encoding != NibbleEnc.enc62)
  | Option.none => false

/-- `DiskImg::ValidateCreateFormat`.  The source is a sequence of guarded
`return kDIErrInvalidCreateReq` statements; the nested
`if (fPhysical != kPhysicalFormatSectors) { … }` block is flattened here
by repeating the guard on each of its checks. -/
def validateCreateFormat (img : DiskImg) : DIError :=
  if img.hasBlocks ∧ img.numBlocks ≥ 4194304 ∧ img.fileFormat ≠ FileFormat.unadorned then
    .invalidCreateReq
  else if img.outerFormat = OuterFormat.unknown ∨ img.fileFormat = FileFormat.unknown ∨
    img.physical = PhysicalFormat.unknown ∨ img.order = SectorOrder.unknown ∨
    img.format = FSFormat.unknown then
    .invalidCreateReq
  else if img.outerFormat ≠ OuterFormat.none ∧ img.outerFormat ≠ OuterFormat.gzip ∧
    img.outerFormat ≠ OuterFormat.zip then
    .invalidCreateReq
  else if img.fileFormat ≠ FileFormat.unadorned ∧ img.fileFormat ≠ FileFormat.twoMG ∧
    img.fileFormat ≠ FileFormat.diskCopy42 ∧ img.fileFormat ≠ FileFormat.sim2eHDV ∧
    img.fileFormat ≠ FileFormat.trackStar ∧ img.fileFormat ≠ FileFormat.fdi ∧
    img.fileFormat ≠ FileFormat.nuFX ∧ img.fileFormat ≠ FileFormat.ddd then
    .invalidCreateReq
  else if img.format ≠ FSFormat.genericPhysicalOrd ∧ img.format ≠ FSFormat.genericProDOSOrd ∧
    img.format ≠ FSFormat.genericDOSOrd ∧ img.format ≠ FSFormat.genericCPMOrd then
    .invalidCreateReq
  else if img.physical ≠ PhysicalFormat.sectors ∧ img.order ≠ SectorOrder.physical then
    .invalidCreateReq
  else if img.physical ≠ PhysicalFormat.sectors ∧
    (img.hasSectors = false ∧ img.hasNibbles = false) then
    .invalidCreateReq
  else if img.physical ≠ PhysicalFormat.sectors ∧
    (img.nibbleDescr = Option.none ∧ img.numSectPerTrack > 0) then
    .invalidCreateReq
  else if img.physical ≠ PhysicalFormat.sectors ∧
    descrCountMismatch img.nibbleDescr img.numSectPerTrack then
    .invalidCreateReq
  else if img.physical ≠ PhysicalFormat.sectors ∧
    descrEncodingMismatch img.nibbleDescr then
    .invalidCreateReq
  else if img.physical ≠ PhysicalFormat.sectors ∧
    img.numTracks ≠ 35 ∧ ¬(img.numTracks = 40 ∧ img.fileFormat = FileFormat.trackStar) then
    .invalidCreateReq
  else if img.fileFormat = FileFormat.twoMG ∧ img.physical ≠ PhysicalFormat.sectors ∧
    img.physical ≠ PhysicalFormat.nib525_6656 then
    .invalidCreateReq
  else if img.fileFormat = FileFormat.twoMG ∧ img.physical = PhysicalFormat.sectors ∧
    img.order ≠ SectorOrder.prodos ∧ img.order ≠ SectorOrder.dos then
    .invalidCreateReq
  else if img.fileFormat = FileFormat.nuFX ∧ img.outerFormat ≠ OuterFormat.none then
    .invalidCreateReq
  else if img.fileFormat = FileFormat.nuFX ∧ img.physical ≠ PhysicalFormat.sectors then
    .invalidCreateReq
  else if img.fileFormat = FileFormat.nuFX ∧ img.order ≠ SectorOrder.prodos then
    .invalidCreateReq
  else if img.fileFormat = FileFormat.diskCopy42 ∧ img.physical ≠ PhysicalFormat.sectors then
    .invalidCreateReq
  else if img.fileFormat = FileFormat.diskCopy42 ∧
    ((img.hasBlocks ∧ img.numBlocks ≠ 1600) ∨
     (img.hasSectors ∧ (img.numTracks ≠ 200 ∨ img.numSectPerTrack ≠ 16))) then
    .invalidCreateReq
  else if img.fileFormat = FileFormat.diskCopy42 ∧ img.order ≠ SectorOrder.prodos ∧
    img.order ≠ SectorOrder.dos then
    .invalidCreateReq
  else if img.fileFormat = FileFormat.sim2eHDV ∧ img.physical ≠ PhysicalFormat.sectors then
    .invalidCreateReq
  else if img.fileFormat = FileFormat.sim2eHDV ∧ img.order ≠ SectorOrder.prodos then
    .invalidCreateReq
  else if img.fileFormat = FileFormat.trackStar ∧ img.physical ≠ PhysicalFormat.nib525_var then
    .invalidCreateReq
  else if img.fileFormat = FileFormat.fdi ∧ img.physical ≠ PhysicalFormat.nib525_var then
    .invalidCreateReq
  else if img.fileFormat = FileFormat.ddd ∧ img.physical ≠ PhysicalFormat.sectors then
    .invalidCreateReq
  else if img.fileFormat = FileFormat.ddd ∧ img.order ≠ SectorOrder.dos then
    .invalidCreateReq
  else if img.fileFormat = FileFormat.ddd ∧
    (¬img.hasSectors ∨ img.numTracks ≠ 35 ∨ img.numSectPerTrack ≠ 16) then
    .invalidCreateReq
  else .none

/-! ### Image-file analysis (`AnalyzeImageFile`) and flushing

The outer wrappers (gzip/zip), the per-format `Wrapper*::Test` functions
and `Wrapper*::Prep` live outside the provided sources, so the file-format
identification between the zero-length test and the
post-`Prep` finish is abstracted as an oracle. -/

/-- Oracle for one run of `AnalyzeImageFile`: the file-format
identification outcome (extension dispatch, outer-wrapper handling and
`Wrapper*::Test`, which may fail with e.g. `kDIErrUnrecognizedFileFmt`,
`kDIErrBadFileFormat`, `kDIErrFileArchive` or `kDIErrBadChecksum`), the
`Wrapper*::Prep` outcome and the wrapper's `IsDamaged()` report. -/
structure AnalysisOracle where
  findFormat : Except DIError FileFormat
  prepOk : Except DIError Unit
  wrapperDamaged : Bool

/-- Lines 1116–1120 of the source: a non-fatal wrapper checksum failure
appends the warning note "File checksum didn't match." and forces the
image read-only. -/
def analyzeDamageCheck (damaged : Bool) (img : DiskImg) : DiskImg :=
  if damaged then
    { img with notes := img.notes ++ [(NoteType.warning, "File checksum didn't match.")],
               readOnly := true }
  else img

/-- `DiskImg::AnalyzeImageFile`: measure the wrapped length, reject a
zero-length file with `kDIErrUnrecognizedFileFmt` before any wrapper
probing, then (via the oracle) identify the file format, run
`Wrapper*::Prep`, apply the non-fatal checksum check and record the file
format. -/
def analyzeImageFile (oc : AnalysisOracle) (wrappedLength : Int) (img : DiskImg) :
    Except DIError DiskImg :=
  if wrappedLength = 0 then .error .unrecognizedFileFmt
  else
    match oc.findFormat with
    | .error e => .error e
    | .ok probableFormat =>
      match oc.prepOk with
      | .error e => .error e
      | .ok _ =>
        .ok { analyzeDamageCheck oc.wrapperDamaged img with fileFormat := probableFormat }

/-- Forget the bad-block map of an image (used to state that a function
never consults the map). -/
def eraseMap (img : DiskImg) : DiskImg := { img with badBlockMap := Option.none }

/-! ### Concrete example images (for witnesses and counterexamples) -/

/-- A 140 KiB DOS-ordered 16-sector disk image. -/
def img16 : DiskImg :=
  { hasSectors := true, hasBlocks := true, numTracks := 35, numSectPerTrack := 16,
    numBlocks := 280, order := SectorOrder.dos, fileSysOrder := SectorOrder.dos,
    physical := PhysicalFormat.sectors, format := FSFormat.dos33, length := 143360 }

/-- A 13-sector `.d13` disk image: sectors but no blocks
(`fNumBlocks` keeps its initial `-1`). -/
def img13 : DiskImg :=
  { hasSectors := true, hasBlocks := false, numTracks := 35, numSectPerTrack := 13,
    numBlocks := -1, order := SectorOrder.dos, fileSysOrder := SectorOrder.dos,
    physical := PhysicalFormat.sectors, format := FSFormat.dos32, length := 116480 }

/-- An 800 KiB ProDOS-ordered block image (the shape produced by a
DiskCopy 4.2 wrapper), with a bad-block map listing block 7. -/
def img800 : DiskImg :=
  { hasSectors := true, hasBlocks := true, numTracks := 200, numSectPerTrack := 16,
    numBlocks := 1600, order := SectorOrder.prodos, fileSysOrder := SectorOrder.prodos,
    physical := PhysicalFormat.sectors, format := FSFormat.prodos, length := 819200,
    badBlockMap := Option.some [7] }

/-- A create request with `physical = Sectors` that carries a
`NibbleDescr` whose sector count (16) differs from the geometry's
`fNumSectPerTrack` (-1, no sectors) and whose encoding (5-and-3) is wrong
for 16 sectors. -/
def imgSectorsBadDescr : DiskImg :=
  { hasBlocks := true, numBlocks := 280, order := SectorOrder.prodos,
    physical := PhysicalFormat.sectors, fileFormat := FileFormat.unadorned,
    outerFormat := OuterFormat.none, format := FSFormat.genericProDOSOrd,
    nibbleDescr := Option.some { numSectors := 16, encoding := NibbleEnc.enc53 },
    length := 143360 }

/-- A nibble create request whose sector order is DOS rather than
Physical. -/
def imgNibBadOrder : DiskImg :=
  { hasSectors := true, hasNibbles := true, numTracks := 35, numSectPerTrack := 16,
    order := SectorOrder.dos, physical := PhysicalFormat.nib525_6656,
    fileFormat := FileFormat.unadorned, outerFormat := OuterFormat.none,
    format := FSFormat.genericDOSOrd,
    nibbleDescr := Option.some { numSectors := 16, encoding := NibbleEnc.enc62 },
    length := 232960 }

/-- A parent image (index 0) with one sub-image (index 1). -/
def forest2 : ImgForest :=
  [{ dirty := false, readOnly := false, parent := Option.none },
   { dirty := false, readOnly := false, parent := Option.some 0 }]

/-- An all-failing probe oracle. -/
def probesNone : FSProbes :=
  { macPart := .error .generic, microDrive := .error .generic,
    focusDrive := .error .generic, cffa := .error .generic, fat := .error .generic,
    dos33 := .error .generic, unidosWide := .error .generic, unidos := .error .generic,
    ozdos := .error .generic, prodos := .error .generic, pascal := .error .generic,
    cpm := .error .generic, rdos := .error .generic, hfs := .error .generic }

/-- An analysis oracle for a positively identified DiskCopy 4.2 file with
a damaged data checksum. -/
def oracleDC42Damaged : AnalysisOracle :=
  { findFormat := .ok FileFormat.diskCopy42, prepOk := .ok (), wrapperDamaged := true }

/-- C1: for a sector image with 16 sectors per track (or 32, treated as
two 16-sector halves) and sector pairing disabled, `CalcSectorAndOffset`
on an in-range `(track, sector)` yields the byte offset
`track·nspt·256 + (second half ? 16·256 : 0) + 256·onDisk`, where
`onDisk` is the filesystem-order sector (within its half) mapped through
the fs-to-raw table (`fs2raw`: DOS, ProDOS or CPM table; identity for
Physical) and then through the raw-to-image table (`raw2image`), and the
stored sector index it returns is exactly that `onDisk` value. -/
theorem calcSectorAndOffset_permutes (img : DiskImg) (track sector : Int)
    (imageOrder fsOrder : SectorOrder)
    (hsec : img.hasSectors = true)
    (hnspt : img.numSectPerTrack = 16 ∨ img.numSectPerTrack = 32)
    (hpair : img.sectorPairing = false)
    (ht0 : 0 ≤ track) (ht1 : track < img.numTracks)
    (hs0 : 0 ≤ sector) (hs1 : sector < img.numSectPerTrack) :
    calcSectorAndOffset img track sector imageOrder fsOrder =
      .ok (track * img.numSectPerTrack * 256
            + (if sector ≥ 16 then 16 * 256 else 0)
            + raw2image imageOrder
                (fs2raw fsOrder (if sector ≥ 16 then sector - 16 else sector)) * 256,
          raw2image imageOrder
            (fs2raw fsOrder (if sector ≥ 16 then sector - 16 else sector))) := by
  have h1 : ¬(track < 0 ∨ track ≥ img.numTracks) := by omega
  have h2 : ¬(sector < 0 ∨ sector ≥ img.numSectPerTrack) := by omega
  simp only [calcSectorAndOffset, hsec, hpair, Bool.not_true, Bool.false_eq_true,
    if_false, h1, h2, if_neg, not_false_eq_true, if_pos hnspt, kSectorSize]
  by_cases hge : sector ≥ 16
  all_goals simp only [hge, if_true, if_false, if_pos, if_neg, not_false_eq_true]
  all_goals ring_nf

theorem calcSectorAndOffset_permutes_witness :
    img16.hasSectors = true ∧ img16.numSectPerTrack = 16 ∧ img16.sectorPairing = false ∧
    calcSectorAndOffset img16 17 5 SectorOrder.dos SectorOrder.prodos =
      .ok (17 * img16.numSectPerTrack * 256
            + (if (5 : Int) ≥ 16 then 16 * 256 else 0)
            + raw2image SectorOrder.dos
                (fs2raw SectorOrder.prodos (if (5 : Int) ≥ 16 then 5 - 16 else 5)) * 256,
          raw2image SectorOrder.dos
            (fs2raw SectorOrder.prodos (if (5 : Int) ≥ 16 then 5 - 16 else 5))) :=
  ⟨rfl, rfl, rfl,
   calcSectorAndOffset_permutes img16 17 5 SectorOrder.dos SectorOrder.prodos
     rfl (Or.inl rfl) rfl (by decide) (by decide) (by decide) (by decide)⟩

/-- C7: a zero-length source is rejected with `kDIErrUnrecognizedFileFmt`
immediately after the wrapped length is measured — for every oracle, i.e.
before (and independently of) any outer-wrapper or image-wrapper
probing. -/
theorem analyzeImageFile_zeroLength (oc : AnalysisOracle) (img : DiskImg) :
    analyzeImageFile oc 0 img = .error .unrecognizedFileFmt := by
  simp [analyzeImageFile]

/-- On a read-only image, `WriteBlock` of an in-range block returns
`kDIErrAccessDenied`. -/
theorem writeBlock_readOnly (img : DiskImg) (block : Int) (buf : List Nat)
    (hb : img.hasBlocks = true) (h0 : 0 ≤ block) (h1 : block < img.numBlocks)
    (hro : img.readOnly = true) :
    (writeBlock img block buf).1 = DIError.accessDenied := by
  rw [writeBlock, if_neg (by simp [hb]), if_neg (by omega), if_pos hro]

/-- C5: when the image wrapper is positively identified (`findFormat` and
`Prep` succeed) but reports a damaged checksum, `AnalyzeImageFile` still
succeeds, the image becomes read-only, the checksum warning note is
appended, and each subsequent `WriteBlock` of a valid block returns
`kDIErrAccessDenied`. -/
theorem damagedWrapper_readOnly (oc : AnalysisOracle) (img : DiskImg)
    (wrappedLength : Int) (pf : FileFormat)
    (hlen : wrappedLength ≠ 0)
    (hfind : oc.findFormat = .ok pf)
    (hprep : oc.prepOk = .ok ())
    (hdam : oc.wrapperDamaged = true) :
    ∃ img2,
      analyzeImageFile oc wrappedLength img = .ok img2 ∧
      img2.readOnly = true ∧
      (NoteType.warning, "File checksum didn't match.") ∈ img2.notes ∧
      ∀ block buf, img2.hasBlocks = true → 0 ≤ block → block < img2.numBlocks →
        (writeBlock img2 block buf).1 = DIError.accessDenied := by
  refine ⟨{ analyzeDamageCheck oc.wrapperDamaged img with fileFormat := pf }, ?_, ?_, ?_, ?_⟩
  · simp [analyzeImageFile, hlen, hfind, hprep]
  · simp [analyzeDamageCheck, hdam]
  · simp [analyzeDamageCheck, hdam]
  · intro block buf hb h0 h1
    exact writeBlock_readOnly _ block buf hb h0 h1 (by simp [analyzeDamageCheck, hdam])

theorem damagedWrapper_readOnly_witness :
    ∃ img2,
      analyzeImageFile oracleDC42Damaged 819284 img800 = .ok img2 ∧
      img2.readOnly = true ∧
      (NoteType.warning, "File checksum didn't match.") ∈ img2.notes ∧
      ∀ block buf, img2.hasBlocks = true → 0 ≤ block → block < img2.numBlocks →
        (writeBlock img2 block buf).1 = DIError.accessDenied :=
  damagedWrapper_readOnly oracleDC42Damaged img800 819284 FileFormat.diskCopy42
    (by decide) rfl rfl rfl

/-- C9: calling `OverrideFormat` with the image's current physical
format, filesystem format and sector order is a no-op: it returns success
with the image unchanged, for every probe oracle — i.e. without
consulting any filesystem probe. -/
theorem overrideFormat_noop (p : FSProbes) (img : DiskImg)
    (h : isSectorFormat img.physical = true ∨ isNibbleFormat img.physical = true) :
    overrideFormat p img img.physical img.format img.order = .ok img := by
  have h1 : (!isSectorFormat img.physical && !isNibbleFormat img.physical) = false := by
    rcases h with h | h <;> simp [h]
  simp [overrideFormat, h1]

theorem overrideFormat_noop_witness :
    overrideFormat probesNone img16 img16.physical img16.format img16.order = .ok img16 :=
  overrideFormat_noop probesNone img16 (Or.inl rfl)

/-- C6 counterexample: the claim quantifies over *every* image, but for
an image without blocks (here a 13-sector `.d13` disk, whose `fNumBlocks`
is `-1`) `WriteBlock` of a block index `≥ num_blocks` returns
`kDIErrUnsupportedAccess`, not `kDIErrInvalidBlock`. -/
theorem writeBlock_pastEnd_counterexample :
    img13.hasBlocks = false ∧ (0 : Int) ≥ img13.numBlocks ∧
    (writeBlock img13 0 []).1 = DIError.unsupportedAccess ∧
    DIError.unsupportedAccess ≠ DIError.invalidBlock :=
  ⟨rfl, by decide, rfl, by decide⟩

/-- C6 (amended): for every image *that has blocks*, `WriteBlock` with a
block index `≥ num_blocks` (in particular exactly `num_blocks`) returns
`kDIErrInvalidBlock` and leaves the image — contents and dirty flag —
unchanged. -/
theorem writeBlock_pastEnd_invalidBlock (img : DiskImg) (block : Int) (buf : List Nat)
    (hb : img.hasBlocks = true) (hge : block ≥ img.numBlocks) :
    writeBlock img block buf = (DIError.invalidBlock, img) := by
  rw [writeBlock, if_neg (by simp [hb]), if_pos (by omega)]

theorem writeBlock_pastEnd_invalidBlock_witness :
    writeBlock img16 280 [] = (DIError.invalidBlock, img16) :=
  writeBlock_pastEnd_invalidBlock img16 280 [] rfl (by decide)

/-- `WriteTrackSector` never consults the bad-block map: erasing the map
commutes with the call. -/
theorem writeTrackSector_eraseMap (img : DiskImg) (t s : Int) (b : List Nat) :
    writeTrackSector (eraseMap img) t s b =
      ((writeTrackSector img t s b).1, eraseMap (writeTrackSector img t s b).2) := by
  unfold writeTrackSector
  have h1 : (eraseMap img).readOnly = img.readOnly := rfl
  have h2 : calcSectorAndOffset (eraseMap img) t s (eraseMap img).order
      (eraseMap img).fileSysOrder = calcSectorAndOffset img t s img.order img.fileSysOrder := rfl
  have h3 : (eraseMap img).physical = img.physical := rfl
  rw [h1, h2, h3]
  by_cases h : img.readOnly
  · simp [h]
  · simp only [h, if_false, Bool.false_eq_true]
    cases calcSectorAndOffset img t s img.order img.fileSysOrder with
    | error e => rfl
    | ok p =>
      cases p with
      | mk offset newSector =>
        by_cases hs : isSectorFormat img.physical
        · simp only [hs, if_true]
          unfold copyBytesIn
          rw [h1]
          simp [h]
          rfl
        · simp only [hs, if_false, Bool.false_eq_true]
          by_cases hn : isNibbleFormat img.physical
          · simp only [hn, if_true]
            have h4 : (eraseMap img).nibbleWrite = img.nibbleWrite := rfl
            have h5 : (eraseMap img).data = img.data := rfl
            rw [h4, h5]
            cases img.nibbleWrite img.data t newSector b with
            | error e => rfl
            | ok d => rfl
          · simp only [hn, if_false, Bool.false_eq_true]

/-- C10: with a non-null bad-block map, (1) `ReadBlock` of a valid block
contained in the map fails with `kDIErrReadFailed` before any data is
read, (2) `ReadBlocks` of a valid range containing such a block fails
with `kDIErrReadFailed` before any data is read, and (3) `WriteBlock`
never consults the map — its outcome is unchanged when the map is
erased, so writes to such blocks are not rejected on that basis. -/
theorem badBlockMap_semantics (img : DiskImg) (m : List Int)
    (hm : img.badBlockMap = Option.some m) :
    (∀ block : Int, img.hasBlocks = true → 0 ≤ block → block < img.numBlocks →
      m.contains block = true → readBlock img block = .error .readFailed) ∧
    (∀ s n i : Int, 0 ≤ s → n + s ≤ img.numBlocks → 0 ≤ i → i < n →
      m.contains (s + i) = true → readBlocks img s n = .error .readFailed) ∧
    (∀ block buf, writeBlock (eraseMap img) block buf =
      ((writeBlock img block buf).1, eraseMap (writeBlock img block buf).2)) := by
  refine ⟨?_, ?_, ?_⟩
  · intro block hb h0 h1 hc
    rw [readBlock, readBlockSwapped, if_neg (by simp [hb]), if_neg (by omega), if_pos ?_]
    simp only [checkForBadBlocks, hm, List.any_eq_true, List.mem_range]
    exact ⟨0, by omega, by simpa using hc⟩
  · intro s n i h0 h1 hi0 hi1 hc
    rw [readBlocks, if_neg (by omega), if_pos ?_]
    simp only [checkForBadBlocks, hm, List.any_eq_true, List.mem_range]
    refine ⟨i.toNat, by omega, ?_⟩
    rw [Int.toNat_of_nonneg hi0]
    simpa using hc
  · intro block buf
    unfold writeBlock
    have h1 : (eraseMap img).hasBlocks = img.hasBlocks := rfl
    have h2 : (eraseMap img).numBlocks = img.numBlocks := rfl
    have h3 : (eraseMap img).readOnly = img.readOnly := rfl
    have h4 : (eraseMap img).hasSectors = img.hasSectors := rfl
    have h5 : isLinearBlocks (eraseMap img) (eraseMap img).order (eraseMap img).fileSysOrder =
        isLinearBlocks img img.order img.fileSysOrder := rfl
    have h6 : (eraseMap img).numSectPerTrack = img.numSectPerTrack := rfl
    rw [h1, h2, h3, h4, h5, h6]
    by_cases hb : img.hasBlocks
    case neg => simp [hb]
    case pos =>
    simp only [hb, Bool.not_true, Bool.false_eq_true, if_false]
    by_cases hr : block < 0 ∨ block ≥ img.numBlocks
    · simp [hr]
    · simp only [hr, if_false]
      by_cases hro : img.readOnly
      · simp [hro]
      · simp only [hro, Bool.false_eq_true, if_false]
        by_cases hl : (img.hasSectors && !isLinearBlocks img img.order img.fileSysOrder) = true
        · simp only [hl, if_true]
          rw [writeTrackSector_eraseMap]
          cases hX : writeTrackSector img
              (Int.tdiv block (Int.tdiv img.numSectPerTrack 2))
              ((block - Int.tdiv block (Int.tdiv img.numSectPerTrack 2) *
                Int.tdiv img.numSectPerTrack 2) * 2) (buf.take 256) with
          | mk e img2 =>
            cases e
            all_goals first
            | rfl
            | exact writeTrackSector_eraseMap img2 _ _ _
        · simp only [hl, Bool.false_eq_true, if_false, hb, if_true]
          unfold copyBytesIn
          rw [h3]
          simp [hro]
          rfl

theorem badBlockMap_semantics_witness :
    readBlock img800 7 = .error .readFailed ∧
    readBlocks img800 6 2 = .error .readFailed ∧
    writeBlock (eraseMap img800) 7 [] =
      ((writeBlock img800 7 []).1, eraseMap (writeBlock img800 7 []).2) :=
  ⟨(badBlockMap_semantics img800 [7] rfl).1 7 rfl (by decide) (by decide) (by decide),
   (badBlockMap_semantics img800 [7] rfl).2.1 6 2 1 (by decide) (by decide) (by decide)
     (by decide) (by decide),
   (badBlockMap_semantics img800 [7] rfl).2.2 7 []⟩

/-- C4: `AnalyzeImageFS` tries the probes in exactly the order
MacPart, MicroDrive, FocusDrive, CFFA, FAT, DOS 3.3/3.2, wide UNIDOS,
UNIDOS, OzDOS, ProDOS, Pascal, CPM, RDOS, HFS (`probeOrder`); the
resulting filesystem format is the one delivered by the first succeeding
probe (with the source's 13-sector DOS 3.2 adjustment), and `kFormatUnknown`
when every probe fails.  The function is total — no error is returned in
either case. -/
theorem analyzeImageFS_firstProbe (p : FSProbes) (img : DiskImg) :
    (analyzeImageFS p img).format =
      match firstProbeHit p with
      | Option.none => FSFormat.unknown
      | Option.some (pid, _, f) =>
        if pid = ProbeId.dos33 ∧ img.numSectPerTrack = 13 then FSFormat.dos32 else f := by
  unfold analyzeImageFS firstProbeHit probeOrder
  cases h1 : p.macPart with
  | ok r =>
    obtain ⟨o, f⟩ := r
    simp [List.findSome?, probeOutcome, h1]
  | error e1 =>
    cases h2 : p.microDrive with
    | ok r =>
      obtain ⟨o, f⟩ := r
      simp [List.findSome?, probeOutcome, h1, h2]
    | error e2 =>
      cases h3 : p.focusDrive with
      | ok r =>
        obtain ⟨o, f⟩ := r
        simp [List.findSome?, probeOutcome, h1, h2, h3]
      | error e3 =>
        cases h4 : p.cffa with
        | ok r =>
          obtain ⟨o, f⟩ := r
          simp [List.findSome?, probeOutcome, h1, h2, h3, h4]
        | error e4 =>
          cases h5 : p.fat with
          | ok r =>
            obtain ⟨o, f⟩ := r
            simp [List.findSome?, probeOutcome, h1, h2, h3, h4, h5]
          | error e5 =>
            cases h6 : p.dos33 with
            | ok r =>
              obtain ⟨o, f⟩ := r
              simp [List.findSome?, probeOutcome, h1, h2, h3, h4, h5, h6]
              by_cases h13 : img.numSectPerTrack = 13
              all_goals simp [h13]
            | error e6 =>
              cases h7 : p.unidosWide with
              | ok r =>
                obtain ⟨o, f⟩ := r
                simp [List.findSome?, probeOutcome, h1, h2, h3, h4, h5, h6, h7]
              | error e7 =>
                cases h8 : p.unidos with
                | ok r =>
                  obtain ⟨o, f⟩ := r
                  simp [List.findSome?, probeOutcome, h1, h2, h3, h4, h5, h6, h7, h8]
                | error e8 =>
                  cases h9 : p.ozdos with
                  | ok r =>
                    obtain ⟨o, f⟩ := r
                    simp [List.findSome?, probeOutcome, h1, h2, h3, h4, h5, h6, h7, h8, h9]
                  | error e9 =>
                    cases h10 : p.prodos with
                    | ok r =>
                      obtain ⟨o, f⟩ := r
                      simp [List.findSome?, probeOutcome, h1, h2, h3, h4, h5, h6, h7, h8, h9, h10]
                    | error e10 =>
                      cases h11 : p.pascal with
                      | ok r =>
                        obtain ⟨o, f⟩ := r
                        simp [List.findSome?, probeOutcome, h1, h2, h3, h4, h5, h6, h7, h8, h9, h10, h11]
                      | error e11 =>
                        cases h12 : p.cpm with
                        | ok r =>
                          obtain ⟨o, f⟩ := r
                          simp [List.findSome?, probeOutcome, h1, h2, h3, h4, h5, h6, h7, h8, h9, h10, h11, h12]
                        | error e12 =>
                          cases h13 : p.rdos with
                          | ok r =>
                            obtain ⟨o, f⟩ := r
                            simp [List.findSome?, probeOutcome, h1, h2, h3, h4, h5, h6, h7, h8, h9, h10, h11, h12, h13]
                          | error e13 =>
                            cases h14 : p.hfs with
                            | ok r =>
                              obtain ⟨o, f⟩ := r
                              simp [List.findSome?, probeOutcome, h1, h2, h3, h4, h5, h6, h7, h8, h9, h10, h11, h12, h13, h14]
                            | error e14 =>
                              simp [List.findSome?, probeOutcome, h1, h2, h3, h4, h5, h6, h7, h8, h9, h10, h11, h12, h13, h14]

/-- C8 counterexample: the NibbleDescr checks are reached only for
non-sector (nibble) physical formats, so a create request with
`physical = Sectors` whose supplied NibbleDescr disagrees with the
geometry in sector count *and* in encoding still passes
`ValidateCreateFormat` — the claim's unrestricted "every request whose
supplied NibbleDescr …" is refuted. -/
theorem validateCreateFormat_descr_counterexample :
    imgSectorsBadDescr.physical = PhysicalFormat.sectors ∧
    descrCountMismatch imgSectorsBadDescr.nibbleDescr imgSectorsBadDescr.numSectPerTrack = true ∧
    descrEncodingMismatch imgSectorsBadDescr.nibbleDescr = true ∧
    validateCreateFormat imgSectorsBadDescr = DIError.none :=
  ⟨rfl, by decide, by decide, by decide⟩

/-- C8 (amended): for every create request whose physical format is a
nibble format, `ValidateCreateFormat` returns `kDIErrInvalidCreateReq`
when the requested sector order is not Physical, or when the supplied
NibbleDescr's sector count differs from the geometry's sectors per
track, or when its encoding is not 5-and-3 for 13 sectors and 6-and-2
for 16 sectors. -/
theorem validateCreateFormat_nibbleChecks (img : DiskImg)
    (hnib : isNibbleFormat img.physical = true)
    (h : img.order ≠ SectorOrder.physical ∨
         descrCountMismatch img.nibbleDescr img.numSectPerTrack = true ∨
         descrEncodingMismatch img.nibbleDescr = true) :
    validateCreateFormat img = DIError.invalidCreateReq := by
  have hps : img.physical ≠ PhysicalFormat.sectors := by
    cases hp : img.physical <;> simp_all [isNibbleFormat]
  unfold validateCreateFormat
  rcases h with h | h | h
  ·
    by_cases hc1 : (img.hasBlocks = true ∧ img.numBlocks ≥ 4194304 ∧ img.fileFormat ≠ FileFormat.unadorned)
    · rw [if_pos hc1]
    rw [if_neg hc1]
    by_cases hc2 : (img.outerFormat = OuterFormat.unknown ∨ img.fileFormat = FileFormat.unknown ∨ img.physical = PhysicalFormat.unknown ∨ img.order = SectorOrder.unknown ∨ img.format = FSFormat.unknown)
    · rw [if_pos hc2]
    rw [if_neg hc2]
    by_cases hc3 : (img.outerFormat ≠ OuterFormat.none ∧ img.outerFormat ≠ OuterFormat.gzip ∧ img.outerFormat ≠ OuterFormat.zip)
    · rw [if_pos hc3]
    rw [if_neg hc3]
    by_cases hc4 : (img.fileFormat ≠ FileFormat.unadorned ∧ img.fileFormat ≠ FileFormat.twoMG ∧ img.fileFormat ≠ FileFormat.diskCopy42 ∧ img.fileFormat ≠ FileFormat.sim2eHDV ∧ img.fileFormat ≠ FileFormat.trackStar ∧ img.fileFormat ≠ FileFormat.fdi ∧ img.fileFormat ≠ FileFormat.nuFX ∧ img.fileFormat ≠ FileFormat.ddd)
    · rw [if_pos hc4]
    rw [if_neg hc4]
    by_cases hc5 : (img.format ≠ FSFormat.genericPhysicalOrd ∧ img.format ≠ FSFormat.genericProDOSOrd ∧ img.format ≠ FSFormat.genericDOSOrd ∧ img.format ≠ FSFormat.genericCPMOrd)
    · rw [if_pos hc5]
    rw [if_neg hc5]
    rw [if_pos (show img.physical ≠ PhysicalFormat.sectors ∧ img.order ≠ SectorOrder.physical from ⟨hps, h⟩)]
  ·
    by_cases hc1 : (img.hasBlocks = true ∧ img.numBlocks ≥ 4194304 ∧ img.fileFormat ≠ FileFormat.unadorned)
    · rw [if_pos hc1]
    rw [if_neg hc1]
    by_cases hc2 : (img.outerFormat = OuterFormat.unknown ∨ img.fileFormat = FileFormat.unknown ∨ img.physical = PhysicalFormat.unknown ∨ img.order = SectorOrder.unknown ∨ img.format = FSFormat.unknown)
    · rw [if_pos hc2]
    rw [if_neg hc2]
    by_cases hc3 : (img.outerFormat ≠ OuterFormat.none ∧ img.outerFormat ≠ OuterFormat.gzip ∧ img.outerFormat ≠ OuterFormat.zip)
    · rw [if_pos hc3]
    rw [if_neg hc3]
    by_cases hc4 : (img.fileFormat ≠ FileFormat.unadorned ∧ img.fileFormat ≠ FileFormat.twoMG ∧ img.fileFormat ≠ FileFormat.diskCopy42 ∧ img.fileFormat ≠ FileFormat.sim2eHDV ∧ img.fileFormat ≠ FileFormat.trackStar ∧ img.fileFormat ≠ FileFormat.fdi ∧ img.fileFormat ≠ FileFormat.nuFX ∧ img.fileFormat ≠ FileFormat.ddd)
    · rw [if_pos hc4]
    rw [if_neg hc4]
    by_cases hc5 : (img.format ≠ FSFormat.genericPhysicalOrd ∧ img.format ≠ FSFormat.genericProDOSOrd ∧ img.format ≠ FSFormat.genericDOSOrd ∧ img.format ≠ FSFormat.genericCPMOrd)
    · rw [if_pos hc5]
    rw [if_neg hc5]
    by_cases hc6 : (img.physical ≠ PhysicalFormat.sectors ∧ img.order ≠ SectorOrder.physical)
    · rw [if_pos hc6]
    rw [if_neg hc6]
    by_cases hc7 : (img.physical ≠ PhysicalFormat.sectors ∧ (img.hasSectors = false ∧ img.hasNibbles = false))
    · rw [if_pos hc7]
    rw [if_neg hc7]
    by_cases hc8 : (img.physical ≠ PhysicalFormat.sectors ∧ (img.nibbleDescr = Option.none ∧ img.numSectPerTrack > 0))
    · rw [if_pos hc8]
    rw [if_neg hc8]
    rw [if_pos (show img.physical ≠ PhysicalFormat.sectors ∧ descrCountMismatch img.nibbleDescr img.numSectPerTrack = true from ⟨hps, h⟩)]
  ·
    by_cases hc1 : (img.hasBlocks = true ∧ img.numBlocks ≥ 4194304 ∧ img.fileFormat ≠ FileFormat.unadorned)
    · rw [if_pos hc1]
    rw [if_neg hc1]
    by_cases hc2 : (img.outerFormat = OuterFormat.unknown ∨ img.fileFormat = FileFormat.unknown ∨ img.physical = PhysicalFormat.unknown ∨ img.order = SectorOrder.unknown ∨ img.format = FSFormat.unknown)
    · rw [if_pos hc2]
    rw [if_neg hc2]
    by_cases hc3 : (img.outerFormat ≠ OuterFormat.none ∧ img.outerFormat ≠ OuterFormat.gzip ∧ img.outerFormat ≠ OuterFormat.zip)
    · rw [if_pos hc3]
    rw [if_neg hc3]
    by_cases hc4 : (img.fileFormat ≠ FileFormat.unadorned ∧ img.fileFormat ≠ FileFormat.twoMG ∧ img.fileFormat ≠ FileFormat.diskCopy42 ∧ img.fileFormat ≠ FileFormat.sim2eHDV ∧ img.fileFormat ≠ FileFormat.trackStar ∧ img.fileFormat ≠ FileFormat.fdi ∧ img.fileFormat ≠ FileFormat.nuFX ∧ img.fileFormat ≠ FileFormat.ddd)
    · rw [if_pos hc4]
    rw [if_neg hc4]
    by_cases hc5 : (img.format ≠ FSFormat.genericPhysicalOrd ∧ img.format ≠ FSFormat.genericProDOSOrd ∧ img.format ≠ FSFormat.genericDOSOrd ∧ img.format ≠ FSFormat.genericCPMOrd)
    · rw [if_pos hc5]
    rw [if_neg hc5]
    by_cases hc6 : (img.physical ≠ PhysicalFormat.sectors ∧ img.order ≠ SectorOrder.physical)
    · rw [if_pos hc6]
    rw [if_neg hc6]
    by_cases hc7 : (img.physical ≠ PhysicalFormat.sectors ∧ (img.hasSectors = false ∧ img.hasNibbles = false))
    · rw [if_pos hc7]
    rw [if_neg hc7]
    by_cases hc8 : (img.physical ≠ PhysicalFormat.sectors ∧ (img.nibbleDescr = Option.none ∧ img.numSectPerTrack > 0))
    · rw [if_pos hc8]
    rw [if_neg hc8]
    by_cases hc9 : (img.physical ≠ PhysicalFormat.sectors ∧ descrCountMismatch img.nibbleDescr img.numSectPerTrack = true)
    · rw [if_pos hc9]
    rw [if_neg hc9]
    rw [if_pos (show img.physical ≠ PhysicalFormat.sectors ∧ descrEncodingMismatch img.nibbleDescr = true from ⟨hps, h⟩)]

theorem validateCreateFormat_nibbleChecks_witness :
    validateCreateFormat imgNibBadOrder = DIError.invalidCreateReq :=
  validateCreateFormat_nibbleChecks imgNibBadOrder rfl (Or.inl (by decide))

/-- `markNode` viewed through indexing: node `k` gets its dirty flag set,
everything else is untouched. -/
theorem markNode_getElem (f : ImgForest) (k i : Nat) :
    (markNode f k)[i]? =
      if k = i then (f[i]?).map (fun nd => { nd with dirty := true }) else f[i]? := by
  unfold markNode
  cases hk : f[k]? with
  | none =>
    by_cases h : k = i
    · subst h
      simp [hk]
    · simp [h]
  | some nd =>
    by_cases h : k = i
    · subst h
      rw [if_pos rfl, List.getElem?_set_self', hk]
      rfl
    · rw [if_neg h, List.getElem?_set_ne h]

/-- `markNode` does not change parent links. -/
theorem markNode_parentOf (f : ImgForest) (k i : Nat) :
    parentOf (markNode f k) i = parentOf f i := by
  unfold parentOf
  rw [markNode_getElem]
  by_cases h : k = i
  · subst h
    cases f[k]? <;> simp
  · rw [if_neg h]

/-- `markNode` does not change the family size. -/
theorem markNode_length (f : ImgForest) (k : Nat) : (markNode f k).length = f.length := by
  unfold markNode
  cases f[k]? <;> simp

/-- `markNode` preserves well-formedness. -/
theorem markNode_wf (f : ImgForest) (k : Nat) (hwf : wfForest f) : wfForest (markNode f k) := by
  intro i nd p hget hp
  rw [markNode_getElem] at hget
  by_cases h : k = i
  · subst h
    rw [if_pos rfl] at hget
    cases hk : f[k]? with
    | none => rw [hk] at hget; cases hget
    | some nd0 =>
      rw [hk] at hget
      simp only [Option.map_some'] at hget
      cases hget
      exact hwf k nd0 p hk hp
  · rw [if_neg h] at hget
    exact hwf i nd p hget hp

/-- `markNode` marks its own target dirty. -/
theorem markNode_dirty_self (f : ImgForest) (k : Nat) (nd : ImgNode) (hk : f[k]? = some nd) :
    nodeDirty (markNode f k) k = true := by
  unfold nodeDirty
  rw [markNode_getElem, if_pos rfl, hk]
  rfl

/-- `markNode` never clears a dirty flag. -/
theorem markNode_dirty_mono (f : ImgForest) (k j : Nat) (h : nodeDirty f j = true) :
    nodeDirty (markNode f k) j = true := by
  unfold nodeDirty at h ⊢
  rw [markNode_getElem]
  by_cases hk : k = j
  · subst hk
    rw [if_pos rfl]
    cases hfk : f[k]? with
    | none => rw [hfk] at h; cases h
    | some nd => rfl
  · rw [if_neg hk]
    exact h

/-- The dirty walk never clears a dirty flag. -/
theorem dirtyWalk_dirty_mono (fuel : Nat) : ∀ (f : ImgForest) (i j : Nat),
    nodeDirty f j = true → nodeDirty (dirtyWalk fuel f i) j = true := by
  induction fuel with
  | zero => intro f i j h; exact h
  | succ n ih =>
    intro f i j h
    unfold dirtyWalk
    cases parentOf f i with
    | none => exact markNode_dirty_mono f i j h
    | some p => exact ih (markNode f i) p j (markNode_dirty_mono f i j h)

/-- With enough fuel, the dirty walk from a valid node of a well-formed
family marks that node and every one of its ancestors dirty. -/
theorem dirtyWalk_marks (fuel : Nat) : ∀ (f : ImgForest) (i j : Nat),
    wfForest f → i < fuel → i < f.length →
    ancestorOf f i j → nodeDirty (dirtyWalk fuel f i) j = true := by
  induction fuel with
  | zero => intro f i j _ h; omega
  | succ n ih =>
    intro f i j hwf hfuel hlen hanc
    have hex : ∃ nd, f[i]? = some nd := ⟨_, List.getElem?_eq_getElem hlen⟩
    obtain ⟨nd0, hnd⟩ := hex
    rcases (Relation.ReflTransGen.cases_head hanc) with rfl | ⟨b, hstep, hrest⟩
    · unfold dirtyWalk
      cases hp : parentOf f i with
      | none => exact markNode_dirty_self f i _ hnd
      | some p =>
        exact dirtyWalk_dirty_mono n (markNode f i) p i (markNode_dirty_self f i _ hnd)
    · have hb : parentOf f i = some b := hstep
      have hbi : b < i := by
        unfold parentOf at hb
        rw [hnd] at hb
        exact hwf i _ b hnd hb
      unfold dirtyWalk
      rw [hb]
      have hanc2 : ancestorOf (markNode f i) b j := by
        have hfun : (fun a c => parentOf (markNode f i) a = some c) =
            fun a c => parentOf f a = some c := by
          funext a c
          rw [markNode_parentOf]
        unfold ancestorOf
        rw [hfun]
        exact hrest
      exact ih (markNode f i) b j (markNode_wf f i hwf) (by omega)
        (by rw [markNode_length]; omega) hanc2

/-- C3 counterexample: the claim's second half fails.  In a two-image
family (root 0, sub-image 1), a successful write through the sub-image
marks both dirty; flushing the root then *completes* (returns
`kDIErrNone`), yet the sub-image still reports `dirty = true`, because
`FlushImage` clears only the flushed image's own flag. -/
theorem dirtyPropagation_counterexample :
    (copyBytesInForest forest2 1).1 = DIError.none ∧
    (flushImageForest (copyBytesInForest forest2 1).2 0).1 = DIError.none ∧
    nodeDirty (flushImageForest (copyBytesInForest forest2 1).2 0).2 1 = true := by
  decide

/-- C3 (amended): after a successful low-level write through a child
sub-image of a well-formed family, the child and every ancestor up the
parent chain report `dirty = true`; and a flush of the root image
completes with the *root's own* dirty flag cleared, every other image's
entry (in particular its dirty flag) left unchanged. -/
theorem dirtyPropagation (f : ImgForest) (c : Nat) (nd : ImgNode)
    (hwf : wfForest f) (hc : f[c]? = some nd) (hro : nd.readOnly = false) :
    ((copyBytesInForest f c).1 = DIError.none ∧
     ∀ j, ancestorOf f c j → nodeDirty (copyBytesInForest f c).2 j = true) ∧
    (∀ (g : ImgForest) (root : Nat) (rd : ImgNode), g[root]? = some rd →
      (flushImageForest g root).1 = DIError.none ∧
      nodeDirty (flushImageForest g root).2 root = false ∧
      ∀ j, j ≠ root → (flushImageForest g root).2[j]? = g[j]?) := by
  have hlen : c < f.length := by
    by_contra h
    rw [List.getElem?_eq_none (by omega)] at hc
    cases hc
  constructor
  · constructor
    · unfold copyBytesInForest
      rw [hc]
      simp [hro]
    · intro j hj
      unfold copyBytesInForest
      rw [hc]
      simp only [hro, Bool.false_eq_true, if_false]
      exact dirtyWalk_marks f.length f c j hwf hlen hlen hj
  · intro g root rd hg
    have hglen : root < g.length := by
      by_contra h
      rw [List.getElem?_eq_none (by omega)] at hg
      cases hg
    unfold flushImageForest
    rw [hg]
    by_cases hd : rd.dirty
    · simp only [hd, Bool.not_true, Bool.false_eq_true, if_false]
      refine ⟨trivial, ?_, ?_⟩
      · unfold nodeDirty
        rw [List.getElem?_set_self', hg]
        rfl
      · intro j hjr
        exact List.getElem?_set_ne (fun hh => hjr hh.symm)
    · have hd2 : rd.dirty = false := by
        cases h : rd.dirty
        · rfl
        · exact absurd h hd
      simp only [hd2, Bool.not_false, if_true]
      refine ⟨trivial, ?_, fun _ _ => trivial⟩
      unfold nodeDirty
      rw [hg]
      exact hd2

theorem dirtyPropagation_witness :
    ((copyBytesInForest forest2 1).1 = DIError.none ∧
     ∀ j, ancestorOf forest2 1 j → nodeDirty (copyBytesInForest forest2 1).2 j = true) ∧
    (∀ (g : ImgForest) (root : Nat) (rd : ImgNode), g[root]? = some rd →
      (flushImageForest g root).1 = DIError.none ∧
      nodeDirty (flushImageForest g root).2 root = false ∧
      ∀ j, j ≠ root → (flushImageForest g root).2[j]? = g[j]?) :=
  dirtyPropagation forest2 1
    { dirty := false, readOnly := false, parent := Option.some 0 }
    (by intro i nd p hget hp
        match i, hget with
        | 0, hget =>
          simp [forest2] at hget
          subst hget
          simp at hp
        | 1, hget =>
          simp [forest2] at hget
          subst hget
          simp at hp
          omega
        | (n+2), hget =>
          simp [forest2] at hget)
    (by decide) rfl

/-- Under a linear block mapping, `ReadBlock` reduces to the validity
check, the bad-block check and one 512-byte linear read. -/
theorem readBlock_linear (img : DiskImg) (b : Int)
    (hb : img.hasBlocks = true)
    (hlin : isLinearBlocks img img.order img.fileSysOrder = true) :
    readBlock img b =
      if b < 0 ∨ b ≥ img.numBlocks then .error .invalidBlock
      else if checkForBadBlocks img b 1 then .error .readFailed
      else .ok (copyBytesOut img (b * kBlockSize) 512) := by
  unfold readBlock readBlockSwapped
  rw [if_neg (by simp [hb])]
  by_cases h1 : b < 0 ∨ b ≥ img.numBlocks
  · rw [if_pos h1, if_pos h1]
  · rw [if_neg h1, if_neg h1]
    by_cases h2 : checkForBadBlocks img b 1
    · rw [if_pos h2, if_pos h2]
    · rw [if_neg h2, if_neg h2, if_neg (by simp [hlin]), if_pos hb]

/-- Peel the first block off a bad-block range check. -/
theorem checkForBadBlocks_split (img : DiskImg) (s : Int) (k : Nat) :
    checkForBadBlocks img s ((k : Int) + 1) =
      (checkForBadBlocks img s 1 || checkForBadBlocks img (s + 1) (k : Int)) := by
  unfold checkForBadBlocks
  cases img.badBlockMap with
  | none => rfl
  | some m =>
    have h1 : ((k : Int) + 1).toNat = k + 1 := by omega
    have h2 : ((k : Int)).toNat = k := by omega
    have h3 : ((1 : Int)).toNat = 1 := by omega
    rw [h1, h2, h3, List.range_succ_eq_map]
    simp only [List.any_cons, List.any_map]
    congr 1
    · have hr1 : List.range 1 = [0] := rfl
      rw [hr1]
      simp
    · congr 1
      funext i
      simp only [Function.comp]
      have : s + ((i : Int) + 1) = s + 1 + (i : Int) := by ring
      simp [this]

/-- One 512-byte linear read followed by the next `k` blocks is one
`(k+1)`-block linear read. -/
theorem copyBytesOut_append (img : DiskImg) (s : Int) (hs : 0 ≤ s) (k : Nat) :
    copyBytesOut img (s * kBlockSize) 512 ++ copyBytesOut img ((s + 1) * kBlockSize) (k * 512) =
      copyBytesOut img (s * kBlockSize) ((k + 1) * 512) := by
  unfold copyBytesOut
  have hsz : (k + 1) * 512 = 512 + k * 512 := by ring
  rw [hsz, List.range_add, List.map_append]
  congr 1
  rw [List.map_map]
  apply List.map_congr_left
  intro i hi
  simp only [Function.comp]
  congr 1
  have h1 : ((s + 1) * kBlockSize).toNat = (s * kBlockSize).toNat + 512 := by
    unfold kBlockSize
    omega
  omega

/-- Forward direction: on a valid, bad-block-free range the
block-at-a-time loop succeeds and produces exactly the bytes of the
single large linear read. -/
theorem readBlocksLoop_ok (img : DiskImg)
    (hb : img.hasBlocks = true)
    (hlin : isLinearBlocks img img.order img.fileSysOrder = true) :
    ∀ (k : Nat) (s : Int), 0 ≤ s → s + k ≤ img.numBlocks →
      checkForBadBlocks img s (k : Int) = false →
      readBlocksLoop img s k = .ok (copyBytesOut img (s * kBlockSize) (k * 512)) := by
  intro k
  induction k with
  | zero =>
    intro s hs0 hsk hchk
    rfl
  | succ k ih =>
    intro s hs0 hsk hchk
    push_cast at hchk hsk
    rw [checkForBadBlocks_split] at hchk
    simp only [Bool.or_eq_false_iff] at hchk
    obtain ⟨hc1, hc2⟩ := hchk
    unfold readBlocksLoop
    rw [readBlock_linear img s hb hlin, if_neg (by omega), if_neg (by simp [hc1])]
    rw [ih (s + 1) (by omega) (by omega) hc2]
    dsimp only
    rw [copyBytesOut_append img s hs0 k]

/-- Backward direction: a successful block-at-a-time loop implies the
range was valid and free of bad blocks. -/
theorem readBlocksLoop_ok_inv (img : DiskImg)
    (hb : img.hasBlocks = true)
    (hlin : isLinearBlocks img img.order img.fileSysOrder = true) :
    ∀ (k : Nat) (s : Int) (bs : List Nat),
      readBlocksLoop img s k = .ok bs →
      (0 < k → 0 ≤ s ∧ s + k ≤ img.numBlocks) ∧ checkForBadBlocks img s (k : Int) = false := by
  intro k
  induction k with
  | zero =>
    intro s bs _
    refine ⟨fun h => absurd h (by omega), ?_⟩
    unfold checkForBadBlocks
    cases img.badBlockMap <;> rfl
  | succ k ih =>
    intro s bs hloop
    unfold readBlocksLoop at hloop
    rw [readBlock_linear img s hb hlin] at hloop
    by_cases h1 : s < 0 ∨ s ≥ img.numBlocks
    · rw [if_pos h1] at hloop
      cases hloop
    · rw [if_neg h1] at hloop
      by_cases h2 : checkForBadBlocks img s 1
      · rw [if_pos h2] at hloop
        cases hloop
      · rw [if_neg h2] at hloop
        dsimp only at hloop
        cases hrest : readBlocksLoop img (s + 1) k with
        | error e =>
          rw [hrest] at hloop
          cases hloop
        | ok rest =>
          rw [hrest] at hloop
          obtain ⟨hrange, hchk⟩ := ih (s + 1) rest hrest
          constructor
          · intro _
            push_cast
            constructor
            · omega
            · by_cases hk : 0 < k
              · have := (hrange hk).2
                push_cast at this
                omega
              · have hk0 : k = 0 := by omega
                subst hk0
                omega
          · push_cast
            rw [checkForBadBlocks_split]
            simp [h2, hchk]

/-- C2: for a sector-format image with blocks whose image order equals
its filesystem order, `ReadBlocks(s, n)` succeeds with result `bs`
exactly when the `n` individual `ReadBlock(s+i)` calls (the
block-at-a-time fallback loop, `readBlocksLoop`) succeed with the same
concatenated 512-byte blocks `bs`: the single large linear read taken on
the fast path is equivalent to the block-at-a-time path. -/
theorem readBlocks_linear_eq_blockwise (img : DiskImg) (s n : Int) (bs : List Nat)
    (hphys : isSectorFormat img.physical = true)
    (hb : img.hasBlocks = true)
    (hord : img.order = img.fileSysOrder)
    (hn : 0 < n) :
    readBlocks img s n = .ok bs ↔ readBlocksLoop img s n.toNat = .ok bs := by
  have hlin : isLinearBlocks img img.order img.fileSysOrder = true := by
    simp [isLinearBlocks, hphys, hb, hord]
  have hcast : ((n.toNat : Int)) = n := Int.toNat_of_nonneg (by omega)
  unfold readBlocks
  rw [hlin]
  constructor
  · intro h
    by_cases h1 : s < 0 ∨ n + s > img.numBlocks
    · rw [if_pos h1] at h
      cases h
    · rw [if_neg h1] at h
      by_cases h2 : checkForBadBlocks img s n
      · rw [if_pos h2] at h
        simp at h
      · rw [if_neg h2] at h
        simp only [Bool.not_true, Bool.false_eq_true, if_false] at h
        rw [readBlocksLoop_ok img hb hlin n.toNat s (by omega) (by omega)
          (by rw [hcast]; exact Bool.not_eq_true _ ▸ (by simpa using h2))]
        exact h
  · intro h
    obtain ⟨hrange, hchk⟩ := readBlocksLoop_ok_inv img hb hlin n.toNat s bs h
    have hk : 0 < n.toNat := by omega
    obtain ⟨hs0, hsn⟩ := hrange hk
    rw [hcast] at hsn hchk
    rw [if_neg (by omega), if_neg (by simp [hchk])]
    simp only [Bool.not_true, Bool.false_eq_true, if_false]
    rw [readBlocksLoop_ok img hb hlin n.toNat s hs0 (by omega) (by rw [hcast]; exact hchk)] at h
    exact h

theorem readBlocks_linear_eq_blockwise_witness :
    readBlocks img16 0 2 = .ok (copyBytesOut img16 (0 * kBlockSize) ((2 : Int).toNat * 512)) ↔
      readBlocksLoop img16 0 (2 : Int).toNat =
        .ok (copyBytesOut img16 (0 * kBlockSize) ((2 : Int).toNat * 512)) :=
  readBlocks_linear_eq_blockwise img16 0 2
    (copyBytesOut img16 (0 * kBlockSize) ((2 : Int).toNat * 512)) rfl rfl rfl (by decide)
